import Mathlib

/-!
Shallow embedding of `ddc_switcher.py` (DDC Monitor Input Switcher).

The program shells out to an external utility (`ddcutil`) via
`subprocess.run`.  We model one external invocation as consuming the next
outcome from a `World` oracle (indexed by the number of invocations made so
far); an invocation either completes with a `CmdResult` (return code,
captured stdout/stderr) or raises a Python exception
(`subprocess.TimeoutExpired` or a generic spawn/IO `Exception`), which we
carry in an `Except PyErr` channel so that the program's `try/except`
structure is explicit.  Mutable state of the `DDCMonitorSwitcher` object
(the `current_input` field) together with the invocation counter and the
trace of issued commands forms `ExecState`.
-/

/-- Result of a completed external command: `returncode`, `stdout`, `stderr`. -/
structure CmdResult where
  returncode : Int
  stdout : String
  stderr : String
deriving DecidableEq

/-- Outcome of one `subprocess.run` call: completion with a result, a
timeout (`subprocess.TimeoutExpired`), or a spawn/IO failure (a generic
`Exception`). -/
inductive ExecOutcome where
  | completed (r : CmdResult)
  | timeout
  | spawnError
deriving DecidableEq

/-- The Python exceptions the program's handlers distinguish. -/
inductive PyErr where
  | timeoutExpired
  | execError
deriving DecidableEq

/-- An external command line (argv list), e.g. from `subprocess.run(cmd)`. -/
abbrev Cmd := List String

/-- The environment: outcome of the k-th external invocation of the process. -/
abbrev World := Nat → ExecOutcome

/-- State threaded through the program: how many external invocations were
made, the trace of commands issued so far (in order), and the object's
`current_input` field (`None` initially, else an input-name string). -/
structure ExecState where
  calls : Nat
  trace : List Cmd
  current_input : Option String
deriving DecidableEq

/-- `subprocess.run(c, ...)`: consumes the next outcome from the world.  The
command is recorded in the trace (the invocation is attempted) whether it
completes or raises. -/
def runCmd (w : World) (c : Cmd) (s : ExecState) :
    Except PyErr CmdResult × ExecState :=
  let s' : ExecState :=
    { s with calls := s.calls + 1, trace := s.trace ++ [c] }
  match w s.calls with
  | .completed r => (.ok r, s')
  | .timeout => (.error .timeoutExpired, s')
  | .spawnError => (.error .execError, s')

/-- Does the character list `hay` start with `needle`? -/
def charsStartWith (hay needle : List Char) : Bool :=
  match hay, needle with
  | _, [] => true
  | [], _ :: _ => false
  | a :: as, b :: bs => a == b && charsStartWith as bs

/-- Does the character list `hay` contain `needle` as a contiguous run? -/
def charsContain (hay needle : List Char) : Bool :=
  charsStartWith hay needle ||
    match hay with
    | [] => false
    | _ :: as => charsContain as needle

/-- Python's `needle in haystack` substring test. -/
def strHas (hay needle : String) : Bool :=
  charsContain hay.toList needle.toList

/-- `self.bus_number = 2` (monitor on i2c-2). -/
def bus_number : Nat := 2

/-- `self.inputs`: input-name → VCP code table from `__init__`. -/
def inputs (name : String) : Option Nat :=
  if name == "displayport" then some 15
  else if name == "usbc" then some 27
  else if name == "hdmi" then some 17
  else none

/-- `evdev.ecodes.KEY_F22` -/
def KEY_F22 : Nat := 192
/-- `evdev.ecodes.KEY_F23` -/
def KEY_F23 : Nat := 193
/-- `evdev.ecodes.KEY_F24` -/
def KEY_F24 : Nat := 194

/-- `self.button_mapping`: scancode → action string from `__init__`. -/
def button_mapping (scancode : Nat) : Option String :=
  if scancode == KEY_F23 then some "displayport"
  else if scancode == KEY_F24 then some "usbc"
  else if scancode == KEY_F22 then some "hdmi_standby"
  else none

/-- The `['which', 'ddcutil']` availability probe issued inside
`switch_input`. -/
def which_cmd : Cmd := ["which", "ddcutil"]

/-- The query command built in `get_current_input`. -/
def getvcp_cmd : Cmd :=
  ["ddcutil", "getvcp", "60", "--bus=" ++ toString bus_number]

/-- The set command built in `switch_input` for a given VCP code. -/
def setvcp_cmd (vcp_code : Nat) : Cmd :=
  ["ddcutil", "setvcp", "60", toString vcp_code,
   "--bus=" ++ toString bus_number]

/-- Step-1 command of `switch_to_hdmi_and_standby` (HDMI is VCP code 17). -/
def hdmi_cmd : Cmd :=
  ["ddcutil", "setvcp", "60", "17", "--bus=" ++ toString bus_number]

/-- Step-2 command of `switch_to_hdmi_and_standby` (standby, `--noverify`). -/
def standby_cmd : Cmd :=
  ["ddcutil", "setvcp", "D6", "02", "--bus=" ++ toString bus_number,
   "--noverify"]

/-- Python's `str.lower()`, character-wise (the tool output the program
lowercases is ASCII, where this agrees with Python's Unicode lowering). -/
def pyLower (s : String) : String :=
  String.mk (s.toList.map Char.toLower)

/-- The output-parsing chain of `get_current_input` (lines 132-138 of the
source): lowercase the captured stdout and test the hex/decimal markers of
each input, DisplayPort first, then USB-C, then HDMI; anything else is
`'unknown'`. -/
def parse_output (stdout : String) : String :=
  let output := pyLower stdout
  if strHas output "x0f" || strHas output "15" then "displayport"
  else if strHas output "x1b" || strHas output "27" then "usbc"
  else if strHas output "x11" || strHas output "17" then "hdmi"
  else "unknown"

/-- `get_current_input`: issues the query command; on zero exit parses the
lowercased output via `parse_output`; returns `'unknown'` on a parse miss,
non-zero exit, or any raised exception (the bare `except:` clause).  The
result is in the `Except` channel so that the absence of escaping
exceptions is a theorem, not a typing artifact. -/
def get_current_inputE (w : World) (s : ExecState) :
    Except PyErr String × ExecState :=
  match runCmd w getvcp_cmd s with
  | (.ok r, s') =>
    if r.returncode == 0 then (.ok (parse_output r.stdout), s')
    else (.ok "unknown", s')
  | (.error _, s') => (.ok "unknown", s')

/-- `switch_input(input_name)`: rejects unknown names; probes for `ddcutil`
with `which`; issues the set command; on zero exit sets
`current_input = input_name`, runs a best-effort verification query whose
result is only logged, and returns `True`; returns `False` on non-zero
exit; the `except` clauses turn `TimeoutExpired` and any `Exception` raised
inside the `try` block into `False`. -/
def switch_inputE (w : World) (input_name : String) (s : ExecState) :
    Except PyErr Bool × ExecState :=
  match inputs input_name with
  | none => (.ok false, s)
  | some vcp_code =>
    match runCmd w which_cmd s with
    | (.error _, s1) => (.ok false, s1)
    | (.ok _, s1) =>
      match runCmd w (setvcp_cmd vcp_code) s1 with
      | (.error _, s2) => (.ok false, s2)
      | (.ok result, s2) =>
        if result.returncode == 0 then
          let s3 := { s2 with current_input := some input_name }
          match get_current_inputE w s3 with
          | (.ok _, s4) => (.ok true, s4)
          | (.error _, s4) => (.ok false, s4)
        else (.ok false, s2)

/-- `switch_to_hdmi_and_standby`: step 1 issues the HDMI set command; a
non-zero exit aborts with `False`; on success `current_input = 'hdmi'` is
recorded and step 2 issues the standby set command, with `True` returned
exactly when it exits zero; the `except` clauses turn `TimeoutExpired` and
any `Exception` raised inside the `try` block into `False`. -/
def switch_to_hdmi_and_standbyE (w : World) (s : ExecState) :
    Except PyErr Bool × ExecState :=
  match runCmd w hdmi_cmd s with
  | (.error _, s1) => (.ok false, s1)
  | (.ok hdmi_result, s1) =>
    if hdmi_result.returncode != 0 then (.ok false, s1)
    else
      let s2 := { s1 with current_input := some "hdmi" }
      match runCmd w standby_cmd s2 with
      | (.error _, s3) => (.ok false, s3)
      | (.ok standby_result, s3) =>
        if standby_result.returncode == 0 then (.ok true, s3)
        else (.ok false, s3)

/-- `handle_button_press(key_event)` for a key-down event with the given
scancode: looks the scancode up in `button_mapping`; `'hdmi_standby'` runs
the compound sequence unconditionally; a simple input action is skipped when
`current_input` already equals it, else `switch_input` runs; an unmapped
scancode only logs.  An exception escaping a callee would propagate (the
method has no handler), hence the `Except` channel. -/
def handle_button_pressE (w : World) (scancode : Nat) (s : ExecState) :
    Except PyErr Unit × ExecState :=
  match button_mapping scancode with
  | some action =>
    if action == "hdmi_standby" then
      match switch_to_hdmi_and_standbyE w s with
      | (.ok _, s') => (.ok (), s')
      | (.error e, s') => (.error e, s')
    else
      if s.current_input == some action then (.ok (), s)
      else
        match switch_inputE w action s with
        | (.ok _, s') => (.ok (), s')
        | (.error e, s') => (.error e, s')
  | none => (.ok (), s)

/-- An entry of `evdev.list_devices()` as `find_macro_pad` inspects it:
its name and whether `evdev.ecodes.EV_KEY` is among its capabilities. -/
structure Device where
  name : String
  hasKeyCapability : Bool
  path : String
deriving DecidableEq

/-- `find_macro_pad`: scans the enumeration for the first key-capable device
named exactly `"binepad BNK8"`; failing that, falls back to the first
key-capable device; returns `None` when no key-capable device exists. -/
def find_macro_pad (devices : List Device) : Option Device :=
  match devices.find?
      (fun d => d.hasKeyCapability && d.name == "binepad BNK8") with
  | some d => some d
  | none =>
    match devices.filter (fun d => d.hasKeyCapability) with
    | [] => none
    | d :: _ => some d

/-- Modelled from the spec: `wake` is absent from the code under `src/`
(only this spec variant describes it).  Per the spec it issues a single
"set power-on" command with verification disabled. -/
def wake_cmd : Cmd :=
  ["ddcutil", "setvcp", "D6", "01", "--bus=" ++ toString bus_number,
   "--noverify"]

/-- Modelled from the spec: `wake() -> bool` is absent from the code under
`src/`.  Per the spec it issues the power-on command once, returns `True`
exactly on a zero exit, and converts any executor failure into `False`
(failure is logged but never propagated). -/
def wakeE (w : World) (s : ExecState) : Except PyErr Bool × ExecState :=
  match runCmd w wake_cmd s with
  | (.ok r, s') => (.ok (r.returncode == 0), s')
  | (.error _, s') => (.ok false, s')

/-- Modelled from the spec: `wake_and_switch(target)` is absent from the
code under `src/`.  Per the spec it always calls `wake()` first, regardless
of its result, then calls `switch_input(target)`, and returns the switch
result only. -/
def wake_and_switchE (w : World) (target : String) (s : ExecState) :
    Except PyErr Bool × ExecState :=
  match wakeE w s with
  | (_, s1) => switch_inputE w target s1

/-- The `InputSource` enumeration of the spec's data model. -/
inductive InputSource where
  | displayport
  | usbc
  | hdmi
deriving DecidableEq

/-- The string key the program uses for an `InputSource`. -/
def InputSource.pyName : InputSource → String
  | .displayport => "displayport"
  | .usbc => "usbc"
  | .hdmi => "hdmi"

/-- The VCP feature-60 code of an `InputSource` (`self.inputs`). -/
def InputSource.code : InputSource → Nat
  | .displayport => 15
  | .usbc => 27
  | .hdmi => 17

/-- The lowercase hex marker `get_current_input` looks for. -/
def InputSource.hexMarker : InputSource → String
  | .displayport => "x0f"
  | .usbc => "x1b"
  | .hdmi => "x11"

/-- The decimal marker `get_current_input` looks for (the input's VCP code
in decimal, as `str(code)` renders it). -/
def InputSource.decMarker : InputSource → String
  | .displayport => "15"
  | .usbc => "27"
  | .hdmi => "17"

/-- Query output mentions this input: it contains the input's hex marker or
its decimal code as a substring. -/
def hasMarker (output : String) (v : InputSource) : Bool :=
  strHas output v.hexMarker || strHas output v.decMarker

/-- Query output (already lowercased) encodes exactly `v`'s numeric code:
it mentions `v` and mentions no other input.  This formalises the spec's
"the query output encodes v's numeric code". -/
def encodes (output : String) (v : InputSource) : Bool :=
  hasMarker output v &&
    ([InputSource.displayport, InputSource.usbc, InputSource.hdmi].all
      (fun u => u == v || !hasMarker output u))

/-- The value `get_current_input` reports for the k-th world outcome
(`s.calls` at the time of the query). -/
def query_result (w : World) (s : ExecState) : String :=
  match w s.calls with
  | .completed r => if r.returncode == 0 then parse_output r.stdout else "unknown"
  | _ => "unknown"

/-- Fresh object state: no invocations yet, `current_input = None`
(as after `__init__`). -/
def s0 : ExecState := ⟨0, [], none⟩

/-- Object state already on HDMI. -/
def s_hdmi : ExecState := ⟨0, [], some "hdmi"⟩

/-- A world where every external invocation times out. -/
def w_fail : World := fun _ => ExecOutcome.timeout

/-- A world where every external invocation exits 0 with empty output. -/
def w_allok : World := fun _ => ExecOutcome.completed ⟨0, "", ""⟩

/-- A world whose fourth invocation (the post-switch query) reports an
HDMI-encoding output, all others exiting 0 with empty output. -/
def w_hdmiquery : World := fun n =>
  if n == 3 then ExecOutcome.completed ⟨0, "VCP 60 SL=0x11", ""⟩
  else ExecOutcome.completed ⟨0, "", ""⟩

/-- A world where every invocation exits 0 printing `15`. -/
def w_dp : World := fun _ => ExecOutcome.completed ⟨0, "15", ""⟩

/-- A sample device enumeration: a generic keyboard first, the macro pad
second. -/
def devs0 : List Device :=
  [⟨"Logitech Keyboard", true, "/dev/input/event3"⟩,
   ⟨"binepad BNK8", true, "/dev/input/event5"⟩]

/- ## Characterization lemmas: each operation fully evaluated. -/

theorem aux_get_eq (w : World) (s : ExecState) :
    get_current_inputE w s =
      (.ok (query_result w s),
       ⟨s.calls + 1, s.trace ++ [getvcp_cmd], s.current_input⟩) := by
  unfold get_current_inputE runCmd query_result
  cases h : w s.calls <;> simp [h]
  split <;> simp

theorem aux_wake_eq (w : World) (s : ExecState) :
    wakeE w s =
      (.ok (match w s.calls with
            | .completed r => r.returncode == 0
            | _ => false),
       ⟨s.calls + 1, s.trace ++ [wake_cmd], s.current_input⟩) := by
  unfold wakeE runCmd
  cases h : w s.calls <;> simp [h]

theorem aux_switch_eq (w : World) (name : String) (s : ExecState) :
    switch_inputE w name s =
      match inputs name with
      | none => (.ok false, s)
      | some code =>
        match w s.calls with
        | .completed _ =>
          match w (s.calls + 1) with
          | .completed r =>
            if r.returncode == 0 then
              (.ok true,
               ⟨s.calls + 3,
                s.trace ++ [which_cmd, setvcp_cmd code, getvcp_cmd],
                some name⟩)
            else
              (.ok false,
               ⟨s.calls + 2, s.trace ++ [which_cmd, setvcp_cmd code],
                s.current_input⟩)
          | _ =>
            (.ok false,
             ⟨s.calls + 2, s.trace ++ [which_cmd, setvcp_cmd code],
              s.current_input⟩)
        | _ =>
          (.ok false,
           ⟨s.calls + 1, s.trace ++ [which_cmd], s.current_input⟩) := by
  unfold switch_inputE runCmd
  cases hn : inputs name
  · rfl
  · rename_i code
    cases h0 : w s.calls
    · rename_i r0
      cases h1 : w (s.calls + 1)
      · rename_i r1
        by_cases hr : r1.returncode = 0
        · simp [h0, h1, hr, aux_get_eq]
        · simp [h0, h1, hr]
      · simp [h0, h1]
      · simp [h0, h1]
    · simp [h0]
    · simp [h0]

theorem aux_compound_eq (w : World) (s : ExecState) :
    switch_to_hdmi_and_standbyE w s =
      match w s.calls with
      | .completed r =>
        if r.returncode == 0 then
          (.ok (match w (s.calls + 1) with
                | .completed r2 => r2.returncode == 0
                | _ => false),
           ⟨s.calls + 2, s.trace ++ [hdmi_cmd, standby_cmd], some "hdmi"⟩)
        else
          (.ok false,
           ⟨s.calls + 1, s.trace ++ [hdmi_cmd], s.current_input⟩)
      | _ =>
        (.ok false,
         ⟨s.calls + 1, s.trace ++ [hdmi_cmd], s.current_input⟩) := by
  unfold switch_to_hdmi_and_standbyE runCmd
  cases h0 : w s.calls
  · rename_i r
    by_cases hr : r.returncode = 0
    · cases h1 : w (s.calls + 1)
      · rename_i r2
        by_cases hr2 : r2.returncode = 0
        · simp [h0, h1, hr, hr2]
        · simp [h0, h1, hr, hr2]
      · simp [h0, h1, hr]
      · simp [h0, h1, hr]
    · simp [h0, hr]
  · simp [h0]
  · simp [h0]

/- ## Small bridging lemmas. -/

theorem aux_inputs_pyName (v : InputSource) : inputs v.pyName = some v.code := by
  cases v <;> rfl

theorem aux_decMarker_eq (v : InputSource) : v.decMarker = toString v.code := by
  cases v <;> rfl

theorem aux_parse_mem (stdout : String) :
    parse_output stdout = "displayport" ∨ parse_output stdout = "usbc" ∨
    parse_output stdout = "hdmi" ∨ parse_output stdout = "unknown" := by
  unfold parse_output
  by_cases h1 :
      (strHas (pyLower stdout) "x0f" || strHas (pyLower stdout) "15") = true
  · simp [h1]
  · by_cases h2 :
        (strHas (pyLower stdout) "x1b" || strHas (pyLower stdout) "27") = true
    · simp [h1, h2]
    · by_cases h3 :
          (strHas (pyLower stdout) "x11" || strHas (pyLower stdout) "17") = true
      · simp [h1, h2, h3]
      · simp [h1, h2, h3]

/- ## Claims. -/

/-- C1: in `switch_to_hdmi_and_standby`, whenever the HDMI switch fails
(non-zero exit, timeout, or spawn error) the operation returns `False`
having issued only the HDMI command and never the standby command; a single
invocation issues at most the two set commands, in the order
switch-to-code-17 then standby-set; and the standby command appears in the
trace only when the HDMI switch reported a zero exit code. -/
theorem claim_C1 (w : World) (s : ExecState) :
    ((¬ ∃ r, w s.calls = ExecOutcome.completed r ∧ r.returncode = 0) →
      (switch_to_hdmi_and_standbyE w s).1 = .ok false ∧
      (switch_to_hdmi_and_standbyE w s).2.trace = s.trace ++ [hdmi_cmd]) ∧
    ((switch_to_hdmi_and_standbyE w s).2.trace = s.trace ++ [hdmi_cmd] ∨
      (switch_to_hdmi_and_standbyE w s).2.trace
        = s.trace ++ [hdmi_cmd, standby_cmd]) ∧
    ((switch_to_hdmi_and_standbyE w s).2.trace
        = s.trace ++ [hdmi_cmd, standby_cmd] →
      ∃ r, w s.calls = ExecOutcome.completed r ∧ r.returncode = 0) := by
  rw [aux_compound_eq]
  cases h0 : w s.calls
  · rename_i r
    by_cases hr : r.returncode = 0
    · refine ⟨fun hno => (hno ⟨r, rfl, hr⟩).elim, ?_, fun _ => ⟨r, rfl, hr⟩⟩
      simp [hr]
    · refine ⟨fun _ => ?_, ?_, fun htr => ?_⟩
      · simp [hr]
      · simp [hr]
      · simp [hr] at htr
  · refine ⟨fun _ => ⟨rfl, rfl⟩, Or.inl rfl, fun htr => ?_⟩
    simp at htr
  · refine ⟨fun _ => ⟨rfl, rfl⟩, Or.inl rfl, fun htr => ?_⟩
    simp at htr

/-- C1 witness: with every invocation timing out, the compound operation
returns `False` and issues only the HDMI command. -/
theorem claim_C1_witness :
    (switch_to_hdmi_and_standbyE w_fail s0).1 = .ok false ∧
    (switch_to_hdmi_and_standbyE w_fail s0).2.trace
      = s0.trace ++ [hdmi_cmd] :=
  (claim_C1 w_fail s0).1
    (by rintro ⟨r, h, -⟩; exact ExecOutcome.noConfusion h)

/-- C3: in `switch_to_hdmi_and_standby`, once the HDMI switch reports a
zero exit code, `current_input` equals `'hdmi'` when the operation returns,
whatever step 2 does, and the operation returns `True` only if both steps
report a zero exit code. -/
theorem claim_C3 (w : World) (s : ExecState) :
    ((∃ r, w s.calls = ExecOutcome.completed r ∧ r.returncode = 0) →
      (switch_to_hdmi_and_standbyE w s).2.current_input = some "hdmi") ∧
    ((switch_to_hdmi_and_standbyE w s).1 = .ok true →
      (∃ r, w s.calls = ExecOutcome.completed r ∧ r.returncode = 0) ∧
      (∃ r, w (s.calls + 1) = ExecOutcome.completed r ∧ r.returncode = 0)) := by
  rw [aux_compound_eq]
  cases h0 : w s.calls
  · rename_i r
    by_cases hr : r.returncode = 0
    · refine ⟨fun _ => by simp [hr], fun hok => ⟨⟨r, rfl, hr⟩, ?_⟩⟩
      simp [hr] at hok
      cases h1 : w (s.calls + 1)
      · rename_i r2
        rw [h1] at hok
        exact ⟨r2, rfl, by simpa using hok⟩
      · rw [h1] at hok
        simp at hok
      · rw [h1] at hok
        simp at hok
    · refine ⟨fun hex => ?_, fun hok => ?_⟩
      · obtain ⟨r', e, hrc⟩ := hex
        injection e with e
        subst e
        exact (hr hrc).elim
      · simp [hr] at hok
  · refine ⟨fun hex => ?_, fun hok => ?_⟩
    · obtain ⟨r', e, -⟩ := hex
      exact ExecOutcome.noConfusion e
    · simp at hok
  · refine ⟨fun hex => ?_, fun hok => ?_⟩
    · obtain ⟨r', e, -⟩ := hex
      exact ExecOutcome.noConfusion e
    · simp at hok

/-- C3 witness: with every invocation exiting 0, after the compound
operation `current_input = 'hdmi'`. -/
theorem claim_C3_witness :
    (switch_to_hdmi_and_standbyE w_allok s0).2.current_input = some "hdmi" :=
  (claim_C3 w_allok s0).1 ⟨⟨0, "", ""⟩, rfl, rfl⟩

/-- C5: a key-down event whose scancode is not a key of `button_mapping`
leaves `handle_button_press` a no-op: no external command is invoked and
the whole state, `current_input` included, is unchanged. -/
theorem claim_C5 (w : World) (scancode : Nat) (s : ExecState)
    (h : button_mapping scancode = none) :
    handle_button_pressE w scancode s = (.ok (), s) := by
  unfold handle_button_pressE
  rw [h]

/-- C5 witness: scancode 0 is unmapped and is a no-op even in a world where
any invocation would time out. -/
theorem claim_C5_witness :
    button_mapping 0 = none ∧
    handle_button_pressE w_fail 0 s0 = (.ok (), s0) :=
  ⟨rfl, claim_C5 w_fail 0 s0 rfl⟩

/-- C6: the Monitor Controller operations never let an executor failure
escape: for every world (timeouts and spawn errors included)
`switch_input` and `switch_to_hdmi_and_standby` return an `ok` boolean and
`get_current_input` returns an `ok` string among the three input names and
`'unknown'`. -/
theorem claim_C6 (w : World) (name : String) (s : ExecState) :
    (∃ b, (switch_inputE w name s).1 = .ok b) ∧
    (∃ v, (get_current_inputE w s).1 = .ok v ∧
      (v = "displayport" ∨ v = "usbc" ∨ v = "hdmi" ∨ v = "unknown")) ∧
    (∃ b, (switch_to_hdmi_and_standbyE w s).1 = .ok b) := by
  refine ⟨?_, ?_, ?_⟩
  · rw [aux_switch_eq]
    cases hn : inputs name
    · exact ⟨false, rfl⟩
    · cases h0 : w s.calls
      · cases h1 : w (s.calls + 1)
        · rename_i r1
          by_cases hr : r1.returncode = 0
          · exact ⟨true, by simp [hr]⟩
          · exact ⟨false, by simp [hr]⟩
        · exact ⟨false, rfl⟩
        · exact ⟨false, rfl⟩
      · exact ⟨false, rfl⟩
      · exact ⟨false, rfl⟩
  · rw [aux_get_eq]
    refine ⟨query_result w s, rfl, ?_⟩
    unfold query_result
    cases h0 : w s.calls
    · rename_i r
      by_cases hr : r.returncode = 0
      · simpa [hr] using aux_parse_mem r.stdout
      · simp [hr]
    · simp
    · simp
  · rw [aux_compound_eq]
    cases h0 : w s.calls
    · rename_i r
      by_cases hr : r.returncode = 0
      · refine ⟨(match w (s.calls + 1) with
                 | ExecOutcome.completed r2 => r2.returncode == 0
                 | _ => false), by simp [hr]⟩
      · exact ⟨false, by simp [hr]⟩
    · exact ⟨false, rfl⟩
    · exact ⟨false, rfl⟩

/-- C2: for every input name, whenever the underlying set command fails
(non-zero exit, timeout, or spawn error), `switch_input` returns `False`
and `current_input` is unchanged; and `current_input` is set to the target
exactly on the `True` return, never on a `False` one. -/
theorem claim_C2 (w : World) (name : String) (s : ExecState) :
    ((¬ ∃ r, w (s.calls + 1) = ExecOutcome.completed r ∧ r.returncode = 0) →
      (switch_inputE w name s).1 = .ok false ∧
      (switch_inputE w name s).2.current_input = s.current_input) ∧
    ((switch_inputE w name s).1 = .ok true →
      (switch_inputE w name s).2.current_input = some name) ∧
    ((switch_inputE w name s).1 = .ok false →
      (switch_inputE w name s).2.current_input = s.current_input) := by
  rw [aux_switch_eq]
  cases hn : inputs name
  · exact ⟨fun _ => ⟨rfl, rfl⟩, fun hok => by simp at hok, fun _ => rfl⟩
  · cases h0 : w s.calls
    · cases h1 : w (s.calls + 1)
      · rename_i r1
        by_cases hr : r1.returncode = 0
        · refine ⟨fun hno => (hno ⟨r1, rfl, hr⟩).elim, fun _ => by simp [hr],
            fun hok => ?_⟩
          simp [hr] at hok
        · refine ⟨fun _ => by simp [hr], fun hok => ?_, fun _ => by simp [hr]⟩
          simp [hr] at hok
      · exact ⟨fun _ => ⟨rfl, rfl⟩, fun hok => by simp at hok, fun _ => rfl⟩
      · exact ⟨fun _ => ⟨rfl, rfl⟩, fun hok => by simp at hok, fun _ => rfl⟩
    · exact ⟨fun _ => ⟨rfl, rfl⟩, fun hok => by simp at hok, fun _ => rfl⟩
    · exact ⟨fun _ => ⟨rfl, rfl⟩, fun hok => by simp at hok, fun _ => rfl⟩

/-- C2 witness: with every invocation timing out, `switch_input` on
`'displayport'` returns `False` and leaves `current_input` as it was. -/
theorem claim_C2_witness :
    (switch_inputE w_fail "displayport" s0).1 = .ok false ∧
    (switch_inputE w_fail "displayport" s0).2.current_input
      = s0.current_input :=
  (claim_C2 w_fail "displayport" s0).1
    (by rintro ⟨r, h, -⟩; exact ExecOutcome.noConfusion h)

/-- C9: `get_current_input` matches markers in the fixed order DisplayPort,
USB-C, HDMI: a successful query whose lowercased output contains `'15'`
anywhere yields DisplayPort whatever else the output contains, and one
whose output avoids both DisplayPort markers but contains `'27'` yields
USB-C even if an HDMI marker is also present. -/
theorem claim_C9 (w : World) (s : ExecState) :
    ((∃ r, w s.calls = ExecOutcome.completed r ∧ r.returncode = 0 ∧
        strHas (pyLower r.stdout) "15" = true) →
      (get_current_inputE w s).1 = .ok "displayport") ∧
    ((∃ r, w s.calls = ExecOutcome.completed r ∧ r.returncode = 0 ∧
        strHas (pyLower r.stdout) "x0f" = false ∧
        strHas (pyLower r.stdout) "15" = false ∧
        strHas (pyLower r.stdout) "27" = true) →
      (get_current_inputE w s).1 = .ok "usbc") := by
  constructor
  · intro hex
    obtain ⟨r, h0, hrc, h15⟩ := hex
    rw [aux_get_eq]
    unfold query_result
    rw [h0]
    unfold parse_output
    simp [hrc, h15]
  · intro hex
    obtain ⟨r, h0, hrc, hxf, h15, h27⟩ := hex
    rw [aux_get_eq]
    unfold query_result
    rw [h0]
    unfold parse_output
    simp [hrc, hxf, h15, h27]

/-- C9 witness: a query exiting 0 with output `15` yields DisplayPort. -/
theorem claim_C9_witness :
    (get_current_inputE w_dp s0).1 = .ok "displayport" :=
  (claim_C9 w_dp s0).1 ⟨⟨0, "15", ""⟩, rfl, rfl, by decide⟩

/-- C10: the skip-if-already-selected check does not apply to the compound
action: a press of the button mapped to `'hdmi_standby'` (F22) runs the
compound sequence, issuing at least the HDMI set command, even when
`current_input` is already `'hdmi'`, and the resulting state is exactly the
compound sequence's. -/
theorem claim_C10 (w : World) (s : ExecState)
    (_h : s.current_input = some "hdmi") :
    (handle_button_pressE w KEY_F22 s).2
      = (switch_to_hdmi_and_standbyE w s).2 ∧
    ∃ l, (handle_button_pressE w KEY_F22 s).2.trace
      = s.trace ++ hdmi_cmd :: l := by
  have hh : handle_button_pressE w KEY_F22 s
      = (match switch_to_hdmi_and_standbyE w s with
         | (.ok _, s') => ((.ok () : Except PyErr Unit), s')
         | (.error e, s') => (.error e, s')) := rfl
  rw [hh, aux_compound_eq]
  cases h0 : w s.calls
  · rename_i r
    by_cases hr : r.returncode = 0
    · refine ⟨by simp [hr], ⟨[standby_cmd], by simp [hr]⟩⟩
    · refine ⟨by simp [hr], ⟨[], by simp [hr]⟩⟩
  · exact ⟨rfl, ⟨[], by simp⟩⟩
  · exact ⟨rfl, ⟨[], by simp⟩⟩

/-- C10 witness: already on HDMI, pressing F22 still runs the compound
sequence and issues the HDMI command. -/
theorem claim_C10_witness :
    (handle_button_pressE w_allok KEY_F22 s_hdmi).2
      = (switch_to_hdmi_and_standbyE w_allok s_hdmi).2 ∧
    ∃ l, (handle_button_pressE w_allok KEY_F22 s_hdmi).2.trace
      = s_hdmi.trace ++ hdmi_cmd :: l :=
  claim_C10 w_allok s_hdmi rfl

theorem aux_parse_encodes (stdout : String) (v : InputSource)
    (h : encodes (pyLower stdout) v = true) :
    parse_output stdout = v.pyName := by
  cases v
  · simp only [encodes, hasMarker, InputSource.hexMarker, InputSource.decMarker,
      List.all_cons, List.all_nil, Bool.and_eq_true, Bool.or_eq_true,
      Bool.not_eq_true'] at h
    obtain ⟨hmark, -, husb, hhdmi, -⟩ := h
    replace husb := husb.resolve_left (by decide)
    replace hhdmi := hhdmi.resolve_left (by decide)
    rcases hmark with hm | hm <;>
      simp [parse_output, hm, InputSource.pyName]
  · simp only [encodes, hasMarker, InputSource.hexMarker, InputSource.decMarker,
      List.all_cons, List.all_nil, Bool.and_eq_true, Bool.or_eq_true,
      Bool.not_eq_true'] at h
    obtain ⟨hmark, hdp, -, hhdmi, -⟩ := h
    replace hdp := hdp.resolve_left (by decide)
    replace hhdmi := hhdmi.resolve_left (by decide)
    simp only [Bool.or_eq_false_iff] at hdp hhdmi
    rcases hmark with hm | hm <;>
      simp [parse_output, hm, hdp.1, hdp.2, InputSource.pyName]
  · simp only [encodes, hasMarker, InputSource.hexMarker, InputSource.decMarker,
      List.all_cons, List.all_nil, Bool.and_eq_true, Bool.or_eq_true,
      Bool.not_eq_true'] at h
    obtain ⟨hmark, hdp, husb, -⟩ := h
    replace hdp := hdp.resolve_left (by decide)
    replace husb := husb.resolve_left (by decide)
    simp only [Bool.or_eq_false_iff] at hdp husb
    rcases hmark with hm | hm <;>
      simp [parse_output, hm, hdp.1, hdp.2, husb.1, husb.2,
        InputSource.pyName]

/-- C4: round-trip consistency under the successful-command assumption.
If the `which` probe completes, the set command of `switch_input(v)` exits
zero, and the query issued by a following `get_current_input` exits zero
with output that encodes `v`'s numeric code (it contains `v`'s hex or
decimal marker and no other input's marker), then `switch_input(v)`
returns `True` and `get_current_input()` returns `v`'s name. -/
theorem claim_C4 (w : World) (v : InputSource) (s : ExecState)
    (hwhich : ∃ r, w s.calls = ExecOutcome.completed r)
    (hset : ∃ r, w (s.calls + 1) = ExecOutcome.completed r ∧ r.returncode = 0)
    (hquery : ∃ r, w (s.calls + 3) = ExecOutcome.completed r ∧
      r.returncode = 0 ∧ encodes (pyLower r.stdout) v = true) :
    (switch_inputE w v.pyName s).1 = .ok true ∧
    (get_current_inputE w (switch_inputE w v.pyName s).2).1
      = .ok v.pyName := by
  obtain ⟨r0, h0⟩ := hwhich
  obtain ⟨r1, h1, hr1⟩ := hset
  obtain ⟨r3, h3, hr3, henc⟩ := hquery
  have hs : switch_inputE w v.pyName s
      = (.ok true,
         ⟨s.calls + 3,
          s.trace ++ [which_cmd, setvcp_cmd v.code, getvcp_cmd],
          some v.pyName⟩) := by
    rw [aux_switch_eq, aux_inputs_pyName]
    rw [h0, h1]
    simp [hr1]
  refine ⟨by rw [hs], ?_⟩
  rw [hs, aux_get_eq]
  unfold query_result
  simp only [h3, hr3, aux_parse_encodes r3.stdout v henc]
  simp

/-- C4 witness: with the set command succeeding and the follow-up query
reporting `SL=0x11`, switching to HDMI and querying round-trips. -/
theorem claim_C4_witness :
    (switch_inputE w_hdmiquery InputSource.hdmi.pyName s0).1 = .ok true ∧
    (get_current_inputE w_hdmiquery
        (switch_inputE w_hdmiquery InputSource.hdmi.pyName s0).2).1
      = .ok InputSource.hdmi.pyName :=
  claim_C4 w_hdmiquery InputSource.hdmi s0 ⟨⟨0, "", ""⟩, rfl⟩
    ⟨⟨0, "", ""⟩, rfl, rfl⟩
    ⟨⟨0, "VCP 60 SL=0x11", ""⟩, rfl, rfl, by decide⟩

/-- C7: whenever the enumeration contains a key-capable device named
exactly `binepad BNK8`, `find_macro_pad` returns a key-capable device of
that exact name, wherever it sits in the enumeration and whatever else is
enumerated; and when no such device exists, it returns the first
key-capable device of the enumeration (`none` if there is none). -/
theorem claim_C7 (devices : List Device) :
    ((∃ d ∈ devices, d.hasKeyCapability = true ∧ d.name = "binepad BNK8") →
      ∃ d, find_macro_pad devices = some d ∧ d.hasKeyCapability = true ∧
        d.name = "binepad BNK8") ∧
    ((∀ d ∈ devices, ¬(d.hasKeyCapability = true ∧ d.name = "binepad BNK8")) →
      find_macro_pad devices
        = (devices.filter (fun d => d.hasKeyCapability)).head?) := by
  constructor
  · intro hex
    obtain ⟨d, hd, hk, hname⟩ := hex
    cases hf : devices.find?
        (fun d => d.hasKeyCapability && d.name == "binepad BNK8")
    · exfalso
      have := List.find?_eq_none.mp hf d hd
      simp [hk, hname] at this
    · rename_i d'
      have hp := List.find?_some hf
      simp only [Bool.and_eq_true, beq_iff_eq] at hp
      refine ⟨d', ?_, hp.1, hp.2⟩
      unfold find_macro_pad
      rw [hf]
  · intro hall
    have hf : devices.find?
        (fun d => d.hasKeyCapability && d.name == "binepad BNK8") = none := by
      rw [List.find?_eq_none]
      intro d hd
      have := hall d hd
      simp only [Bool.and_eq_true, beq_iff_eq]
      tauto
    unfold find_macro_pad
    rw [hf]
    cases hl : devices.filter (fun d => d.hasKeyCapability) <;> rfl

/-- C7 witness: in an enumeration listing a generic keyboard before the
macro pad, the macro pad is selected. -/
theorem claim_C7_witness :
    (∃ d ∈ devs0, d.hasKeyCapability = true ∧ d.name = "binepad BNK8") ∧
    ∃ d, find_macro_pad devs0 = some d ∧ d.hasKeyCapability = true ∧
      d.name = "binepad BNK8" :=
  ⟨by decide, (claim_C7 devs0).1 (by decide)⟩

theorem aux_wake_ne_which : wake_cmd ≠ which_cmd := by decide

theorem aux_wake_ne_getvcp : wake_cmd ≠ getvcp_cmd := by decide

theorem aux_wake_ne_setvcp (k : Nat) : wake_cmd ≠ setvcp_cmd k := by
  intro h
  unfold wake_cmd setvcp_cmd at h
  injection h with h1 h
  injection h with h2 h
  injection h with h3 h
  exact absurd h3 (by decide)

/-- C8: `wake_and_switch(v)` issues the wake command exactly once, as the
first command of the call, before anything `switch_input` issues; it
returns exactly the result of the switch step, whatever the wake command's
outcome. -/
theorem claim_C8 (w : World) (target : String) (s : ExecState) :
    (wakeE w s).2.trace = s.trace ++ [wake_cmd] ∧
    (∃ l, (wake_and_switchE w target s).2.trace = s.trace ++ wake_cmd :: l ∧
      wake_cmd ∉ l) ∧
    (wake_and_switchE w target s).1
      = (switch_inputE w target (wakeE w s).2).1 := by
  have hws : wake_and_switchE w target s
      = switch_inputE w target (wakeE w s).2 := rfl
  refine ⟨by rw [aux_wake_eq], ?_, by rw [hws]⟩
  rw [hws, aux_wake_eq]
  rw [aux_switch_eq]
  cases hn : inputs target
  · exact ⟨[], by simp, by simp⟩
  · rename_i code
    cases h0 : w (s.calls + 1)
    · cases h1 : w (s.calls + 1 + 1)
      · rename_i r1
        by_cases hr : r1.returncode = 0
        · refine ⟨[which_cmd, setvcp_cmd code, getvcp_cmd], by simp [hr], ?_⟩
          simp [aux_wake_ne_which, aux_wake_ne_setvcp, aux_wake_ne_getvcp]
        · refine ⟨[which_cmd, setvcp_cmd code], by simp [hr], ?_⟩
          simp [aux_wake_ne_which, aux_wake_ne_setvcp]
      · refine ⟨[which_cmd, setvcp_cmd code], by simp, ?_⟩
        simp [aux_wake_ne_which, aux_wake_ne_setvcp]
      · refine ⟨[which_cmd, setvcp_cmd code], by simp, ?_⟩
        simp [aux_wake_ne_which, aux_wake_ne_setvcp]
    · exact ⟨[which_cmd], by simp, by simp [aux_wake_ne_which]⟩
    · exact ⟨[which_cmd], by simp, by simp [aux_wake_ne_which]⟩
